import Mathlib

/-!
Shallow embedding of `src/ip.py`: a linear pipeline that fetches per-ticker
price histories and revenue figures, builds four interactive charts per
ticker group, renders them into one HTML document, and uploads the document
to object storage with a local-file fallback.

External collaborators (the market-data provider `yfinance`, the chart
serializer `plotly`, the storage client `boto3`, the environment) are
modelled as explicit parameters/oracles; everything else is translated
directly from the source.
-/

namespace Ip

/-- One symbol's fetched record, as stored by `get_financial_data`
(`all_data[ticker] = {'history': hist, 'revenue': revenue}`):
the daily closing-price series (date order; the embedding keeps only the
`Close` column, the single column the rest of the script reads) and the
optional latest total revenue. -/
structure SymbolRecord where
  history : List ℚ
  revenue : Option ℚ
deriving DecidableEq, Repr

/-- `all_data`, a Python `dict` keyed by ticker symbol: an association list
in insertion order with unique keys. -/
abbrev GroupDataset := List (String × SymbolRecord)

/-- Lookup in the dataset (Python `all_data[ticker]` / `ticker in all_data`). -/
def findRecord : GroupDataset → String → Option SymbolRecord
  | [], _ => none
  | (k, v) :: rest, s => if k = s then some v else findRecord rest s

/-- Python dict assignment `all_data[ticker] = rec`: replace in place when the
key is present (a dict keeps the key's original position), append otherwise. -/
def dictUpdate : GroupDataset → String → SymbolRecord → GroupDataset
  | [], k, v => [(k, v)]
  | (k0, v0) :: rest, k, v =>
      if k0 = k then (k0, v) :: rest else (k0, v0) :: dictUpdate rest k v

/-- Outcome of `stock.history(period=period)` for one loop iteration of
`get_financial_data`: the surrounding `try` catches any exception (`err`),
otherwise a (possibly empty) series is returned. -/
inductive HistOutcome where
  | err
  | ok (h : List ℚ)
deriving DecidableEq, Repr

/-- Outcome of the inner revenue `try` block (`stock.financials` plus the
`"Total Revenue"` extraction): an exception, or a value (`none` when the
`"Total Revenue"` row is missing or empty). -/
inductive RevOutcome where
  | err
  | ok (v : Option ℚ)
deriving DecidableEq, Repr

/-- The revenue the loop body ends up with: `revenue` starts as `None` and the
`except` branch leaves it `None`. -/
def RevOutcome.value : RevOutcome → Option ℚ
  | .err => none
  | .ok v => v

/-- One iteration of the fetch loop: the ticker requested together with that
iteration's oracle outcomes (history fetch, then revenue fetch). A symbol
occurring twice in the input is fetched twice, with independent outcomes. -/
abbrev FetchCall := String × HistOutcome × RevOutcome

/-- Whether an iteration stores an entry: the history fetch must not raise
(`except` → `continue` to next symbol) and must be non-empty
(`if hist.empty: continue`). -/
def FetchCall.stores : FetchCall → Bool
  | (_, .err, _) => false
  | (_, .ok h, _) => !h.isEmpty

/-- The body of the `for ticker in tickers` loop of `get_financial_data`. -/
def fetchStep (acc : GroupDataset) : FetchCall → GroupDataset
  | (_, .err, _) => acc
  | (s, .ok h, ro) => if h = [] then acc else dictUpdate acc s ⟨h, ro.value⟩

/-- The fetch loop, threading the accumulating dict. -/
def fetchLoop (acc : GroupDataset) : List FetchCall → GroupDataset
  | [] => acc
  | c :: cs => fetchLoop (fetchStep acc c) cs

/-- `get_financial_data(tickers, period)`: starts from the empty dict and runs
the loop over the per-iteration oracle outcomes. -/
def get_financial_data (calls : List FetchCall) : GroupDataset :=
  fetchLoop [] calls

/- ### Report builder (`create_interactive_plotly_dashboard`) -/

/-- A chart specification, abstracting the plotly figure objects the builder
constructs: a multi-series line chart (`px.line`), a box plot over the melted
long-form table (`px.box`), a labelled bar chart (`px.bar`), or an empty
figure carrying a single centered text annotation (`go.Figure()` plus
`add_annotation`, the no-revenue placeholder). -/
inductive Figure where
  | line (title : String) (series : List (String × List ℚ))
  | box (title : String) (rows : List (String × ℚ))
  | bar (title xlabel ylabel : String) (entries : List (String × ℚ))
  | annotated (title text : String)
deriving DecidableEq, Repr

/-- `closing_prices`: one closing-price column per symbol, in the dataset's
iteration order (`pd.concat([...], axis=1)` with `columns = data.keys()`;
the embedding assumes the per-symbol series share their date index, so
alignment introduces no gaps). -/
def closingPrices (data : GroupDataset) : List (String × List ℚ) :=
  data.map fun p => (p.1, p.2.history)

/-- `melted_prices`: the wide table melted to long form, one `(Ticker, Close)`
row per date and symbol, stacked column by column as `DataFrame.melt` does. -/
def meltedPrices (data : GroupDataset) : List (String × ℚ) :=
  (closingPrices data).flatMap fun p => p.2.map fun c => (p.1, c)

/-- `Series.pct_change()` on one closing-price column: the day-over-day
fractional change `(p i - p (i-1)) / p (i-1)`; the first day yields no term
(pandas emits `NaN` there, which `mean()` skips). -/
def pctChange : List ℚ → List ℚ
  | [] => []
  | [_] => []
  | a :: b :: t => (b - a) / a :: pctChange (b :: t)

/-- `.mean()` of the pct-change column: the sum of the day-over-day changes
divided by their count (`n - 1` for an `n`-day series). For a one-day series
the count is zero and the rational division yields `0` (pandas yields `NaN`;
no claim depends on that corner). -/
def meanReturn (l : List ℚ) : ℚ :=
  (pctChange l).sum / (pctChange l).length

/-- The ordering used by `.sort_values()` (ascending by value). -/
def returnsRel (a b : String × ℚ) : Prop := a.2 ≤ b.2

instance : DecidableRel returnsRel :=
  fun a b => inferInstanceAs (Decidable (a.2 ≤ b.2))

instance : IsTotal (String × ℚ) returnsRel :=
  ⟨fun a b => le_total a.2 b.2⟩

instance : IsTrans (String × ℚ) returnsRel :=
  ⟨fun _ _ _ hab hbc => le_trans hab hbc⟩

/-- `returns = closing_prices.pct_change().mean().sort_values()`: the
per-symbol mean daily returns, sorted ascending by value. -/
def sortedReturns (data : GroupDataset) : List (String × ℚ) :=
  List.insertionSort returnsRel (data.map fun p => (p.1, meanReturn p.2.history))

/-- `revenues = {k: v['revenue'] for k, v in data.items() if v['revenue'] is
not None}`: the symbols with a non-absent revenue, in dataset order. -/
def revenues (data : GroupDataset) : List (String × ℚ) :=
  data.filterMap fun p => p.2.revenue.map fun v => (p.1, v)

/-- `fig1 = px.line(closing_prices, title=...)`. -/
def priceTrendFig (data : GroupDataset) (group_name : String) : Figure :=
  .line ("📈 Price Trend Over Time (" ++ group_name ++ ")") (closingPrices data)

/-- `fig2 = px.box(melted_prices, ...)`. -/
def priceBoxFig (data : GroupDataset) : Figure :=
  .box "📦 Stock Price Distribution" (meltedPrices data)

/-- `fig3`: a revenue bar chart when `revenues` is non-empty (Python dict
truthiness), otherwise the annotated placeholder figure. -/
def revenueFig (data : GroupDataset) : Figure :=
  if revenues data ≠ [] then
    .bar "💰 Latest Reported Revenue" "Ticker" "Revenue" (revenues data)
  else
    .annotated "💰 Latest Reported Revenue" "No Revenue Data Available"

/-- `fig4 = px.bar(x=returns.index, y=returns.values, ...)`. -/
def avgReturnFig (data : GroupDataset) : Figure :=
  .bar "📉 Average Daily Returns" "Ticker" "Avg Daily Return" (sortedReturns data)

/-- `create_interactive_plotly_dashboard(data, group_name, time_period)`:
the four figures, returned as `[fig1, fig2, fig3, fig4]`. (`time_period` is
accepted but unused by the Python function body.) -/
def create_interactive_plotly_dashboard (data : GroupDataset) (group_name : String) :
    List Figure :=
  [priceTrendFig data group_name, priceBoxFig data, revenueFig data, avgReturnFig data]

/- ### Publisher (`save_plotly_figures_as_html`) -/

/-- The inline CSS block (the Python `styles` string, braces and all). -/
def styles : String :=
  "\n    <style>\n        body \x7b font-family: Arial, sans-serif; background: #f4f6f8; padding: 20px; \x7d\n        h1 \x7b text-align: center; color: #003366; \x7d\n        .chart-container \x7b margin-bottom: 50px; border: 1px solid #ccc; background: white; padding: 15px; border-radius: 10px; box-shadow: 0 2px 5px rgba(0,0,0,0.1); \x7d\n    </style>\n    "

/-- The styled container around one serialized chart:
`f'<div class="chart-container">{fig.to_html(...)}</div>'`. The serializer
`fig.to_html(full_html=False, include_plotlyjs="cdn")` is the external
charting layer, passed in as `toHtml`. -/
def wrapDiv (inner : String) : String :=
  "<div class=\"chart-container\">" ++ inner ++ "</div>"

/-- `combined_html = "".join([...])`: the wrapped charts concatenated in
figure-list order. -/
def combined_html (toHtml : Figure → String) (figures : List Figure) : String :=
  String.join (figures.map fun fig => wrapDiv (toHtml fig))

/-- The text of the document's `<title>` element:
`f"{group_name} Analysis ({time_period})"`. -/
def documentTitle (group_name time_period : String) : String :=
  group_name ++ " Analysis (" ++ time_period ++ ")"

/-- The text of the document's `<h1>` element:
`f"{group_name} Interactive Financial Dashboard ({time_period})"`. -/
def dashboardHeading (group_name time_period : String) : String :=
  group_name ++ " Interactive Financial Dashboard (" ++ time_period ++ ")"

/-- The `<title>` element as it appears in `full_html`. -/
def titleElement (group_name time_period : String) : String :=
  "<title>" ++ documentTitle group_name time_period ++ "</title>"

/-- The `<h1>` element as it appears in `full_html`. -/
def h1Element (group_name time_period : String) : String :=
  "<h1>" ++ dashboardHeading group_name time_period ++ "</h1>"

/-- `full_html`: the complete document (the Python f-string, whitespace
included). -/
def full_html (toHtml : Figure → String) (figures : List Figure)
    (group_name time_period : String) : String :=
  "\n    <html>\n    <head>\n        " ++ titleElement group_name time_period ++
    "\n        " ++ styles ++ "\n    </head>\n    <body>\n        " ++
    h1Element group_name time_period ++ "\n        " ++
    combined_html toHtml figures ++ "\n    </body>\n    </html>\n    "

/-- `filename = f"{group_name}_interactive_dashboard_{time_period}.html"`,
used both as the S3 object key and as the local fallback path. -/
def objectName (group_name time_period : String) : String :=
  group_name ++ "_interactive_dashboard_" ++ time_period ++ ".html"

/-- Observable outcome of one publish: what was uploaded to the bucket and
what was written to the current working directory, each as (name, bytes). -/
structure PublishEffect where
  uploaded : Option (String × String)
  localFile : Option (String × String)
deriving DecidableEq, Repr

/-- `save_plotly_figures_as_html`: serialize, wrap, name, then try the S3
upload (its success is the oracle `uploadOk`); on any upload exception fall
back to `open(filename, "wb")` (oracle `localWriteOk`); a failure of the
local write itself is inside no `try` and propagates as an exception
(`Except.error`). -/
def save_plotly_figures_as_html (toHtml : Figure → String) (figures : List Figure)
    (group_name time_period : String) (uploadOk localWriteOk : Bool) :
    Except String PublishEffect :=
  let full := full_html toHtml figures group_name time_period
  let filename := objectName group_name time_period
  if uploadOk then
    Except.ok ⟨some (filename, full), none⟩
  else if localWriteOk then
    Except.ok ⟨none, some (filename, full)⟩
  else
    Except.error filename

/-- The document produced for a fetched dataset (builder + serialization,
no storage involved). -/
def report_html (toHtml : Figure → String) (data : GroupDataset)
    (group_name time_period : String) : String :=
  full_html toHtml (create_interactive_plotly_dashboard data group_name)
    group_name time_period

/-- The HTML bytes a publish run put somewhere (uploaded, or written locally
on upload failure); `none` when the run died with an uncaught exception. -/
def publishedBytes : Except String PublishEffect → Option String
  | .error _ => none
  | .ok eff =>
      match eff.uploaded with
      | some kv => some kv.2
      | none => eff.localFile.map Prod.snd

/- ### Run driver (`__main__`) and startup configuration -/

/-- The hard-coded ticker groups. -/
def TICKER_GROUPS : List (String × List String) :=
  [("US Banks", ["JPM", "BAC", "C", "WFC", "GS"]),
   ("US Banks in India", ["JPM", "WFC", "C", "BAC"])]

/-- One group's processing in `__main__`: fetch, then — only if the dataset
is non-empty (`if data_us:`) — build the dashboard and publish it. -/
def processGroup (toHtml : Figure → String) (uploadOk localWriteOk : Bool)
    (calls : List FetchCall) (group_name time_period : String) :
    Option (Except String PublishEffect) :=
  let data := get_financial_data calls
  if data = [] then none
  else some (save_plotly_figures_as_html toHtml
    (create_interactive_plotly_dashboard data group_name)
    group_name time_period uploadOk localWriteOk)

/-- One group's contribution to the script's control flow: a skipped group
(`none`) produces no artifact and execution continues; a publish that raises
(the uncaught local-write failure) is an exception propagating out of the
group's section of `__main__`. -/
def groupOutcome (g : Option (Except String PublishEffect)) :
    Except String (Option PublishEffect) :=
  match g with
  | none => Except.ok none
  | some r => r.map some

/-- The `__main__` block: the two groups processed strictly in sequence, each
with its own fetch-oracle outcomes, both with period `"5y"`. An uncaught
exception while processing "US Banks" (the local-write failure of ip.py line
123, inside no `try`) terminates the script: "US Banks in India" is then
never fetched, built or published. -/
def mainRun (toHtml : Figure → String) (uploadOk localWriteOk : Bool)
    (callsUS callsIndia : List FetchCall) :
    Except String (Option PublishEffect × Option PublishEffect) :=
  match groupOutcome (processGroup toHtml uploadOk localWriteOk callsUS "US Banks" "5y") with
  | .error e => .error e
  | .ok eff1 =>
      match groupOutcome (processGroup toHtml uploadOk localWriteOk callsIndia
          "US Banks in India" "5y") with
      | .error e => .error e
      | .ok eff2 => .ok (eff1, eff2)

/-- The process environment as the module-level code reads it: each variable
either unset (`none`) or set to a string (possibly empty). -/
structure Env where
  bucketName : Option String
  defaultRegion : Option String
  accessKeyId : Option String
  secretAccessKey : Option String

/-- Python truthiness of an `os.getenv` result, as tested by
`all([AWS_ACCESS_KEY_ID, AWS_SECRET_ACCESS_KEY])`: `None` and `""` are
falsy. -/
def truthy : Option String → Bool
  | none => false
  | some s => !s.isEmpty

/-- The module-level configuration after a successful startup. -/
structure Config where
  bucketName : Option String
  region : String
  accessKeyId : Option String
  secretAccessKey : Option String
deriving DecidableEq, Repr

/-- The module-level startup: `os.getenv` for the four variables (region
defaulting to `"us-east-1"` when unset), then `sys.exit(1)` unless both
credential values are truthy. -/
def loadConfig (e : Env) : Except Nat Config :=
  if truthy e.accessKeyId && truthy e.secretAccessKey then
    Except.ok ⟨e.bucketName,
      (match e.defaultRegion with
       | none => "us-east-1"
       | some r => r),
      e.accessKeyId, e.secretAccessKey⟩
  else
    Except.error 1

/-- The whole process: startup first (aborting with the exit code when it
fails, before any fetch or upload), then the `__main__` driver. -/
def program (e : Env) (toHtml : Figure → String) (uploadOk localWriteOk : Bool)
    (callsUS callsIndia : List FetchCall) :
    Except Nat (Except String (Option PublishEffect × Option PublishEffect)) :=
  match loadConfig e with
  | .error c => .error c
  | .ok _ => .ok (mainRun toHtml uploadOk localWriteOk callsUS callsIndia)

/- ### Dictionary lemmas -/

theorem findRecord_dictUpdate_self (d : GroupDataset) (k : String) (v : SymbolRecord) :
    findRecord (dictUpdate d k v) k = some v := by
  induction d with
  | nil => simp [dictUpdate, findRecord]
  | cons p rest ih =>
      obtain ⟨k0, v0⟩ := p
      by_cases h : k0 = k
      · simp [dictUpdate, findRecord, h]
      · simp [dictUpdate, findRecord, h, ih]

theorem findRecord_dictUpdate_ne (d : GroupDataset) (k k' : String) (v : SymbolRecord)
    (h : k ≠ k') : findRecord (dictUpdate d k v) k' = findRecord d k' := by
  induction d with
  | nil => simp [dictUpdate, findRecord, h]
  | cons p rest ih =>
      obtain ⟨k0, v0⟩ := p
      by_cases h0 : k0 = k
      · subst h0
        simp [dictUpdate, findRecord, h]
      · simp [dictUpdate, findRecord, h0, ih]

theorem findRecord_isSome_iff_mem_keys (d : GroupDataset) (s : String) :
    (∃ rec, findRecord d s = some rec) ↔ s ∈ d.map Prod.fst := by
  induction d with
  | nil => simp [findRecord]
  | cons p rest ih =>
      obtain ⟨k0, v0⟩ := p
      by_cases h : k0 = s
      · subst h
        simp [findRecord]
      · simp [findRecord, h, ih, Ne.symm h]

theorem keys_dictUpdate (d : GroupDataset) (k : String) (v : SymbolRecord) :
    (dictUpdate d k v).map Prod.fst = d.map Prod.fst ∨
      (dictUpdate d k v).map Prod.fst = d.map Prod.fst ++ [k] := by
  induction d with
  | nil => right; simp [dictUpdate]
  | cons p rest ih =>
      obtain ⟨k0, v0⟩ := p
      by_cases h : k0 = k
      · left; simp [dictUpdate, h]
      · rcases ih with ih | ih
        · left; simp [dictUpdate, h, ih]
        · right; simp [dictUpdate, h, ih]

theorem mem_keys_dictUpdate_self (d : GroupDataset) (k : String) (v : SymbolRecord) :
    k ∈ (dictUpdate d k v).map Prod.fst := by
  rw [← findRecord_isSome_iff_mem_keys]
  exact ⟨v, findRecord_dictUpdate_self d k v⟩

theorem nodup_keys_dictUpdate (d : GroupDataset) (k : String) (v : SymbolRecord)
    (hd : (d.map Prod.fst).Nodup) : ((dictUpdate d k v).map Prod.fst).Nodup := by
  induction d with
  | nil => simp [dictUpdate]
  | cons p rest ih =>
      obtain ⟨k0, v0⟩ := p
      simp only [List.map_cons, List.nodup_cons] at hd
      by_cases h : k0 = k
      · simp only [dictUpdate, h, if_pos rfl]
        subst h
        exact List.nodup_cons.2 hd
      · have ih' := ih hd.2
        simp only [dictUpdate, if_neg h, List.map_cons, List.nodup_cons]
        refine ⟨?_, ih'⟩
        rcases keys_dictUpdate rest k v with hk | hk
        · rw [hk]; exact hd.1
        · rw [hk]
          simp only [List.mem_append, List.mem_singleton]
          rintro (hmem | rfl)
          · exact hd.1 hmem
          · exact h rfl

theorem values_dictUpdate (d : GroupDataset) (k : String) (v : SymbolRecord)
    (P : SymbolRecord → Prop) (hd : ∀ p ∈ d, P p.2) (hv : P v) :
    ∀ p ∈ dictUpdate d k v, P p.2 := by
  induction d with
  | nil => simpa [dictUpdate] using hv
  | cons q rest ih =>
      obtain ⟨k0, v0⟩ := q
      by_cases h : k0 = k
      · simp only [dictUpdate, h, if_pos rfl]
        intro p hp
        rcases List.mem_cons.1 hp with rfl | hp
        · exact hv
        · exact hd p (List.mem_cons_of_mem _ hp)
      · simp only [dictUpdate, h, if_neg h]
        intro p hp
        rcases List.mem_cons.1 hp with rfl | hp
        · exact hd _ (List.mem_cons_self _ _)
        · exact ih (fun q hq => hd q (List.mem_cons_of_mem _ hq)) p hp

/- ### Fetch loop lemmas -/

theorem fetchLoop_append (acc : GroupDataset) (xs ys : List FetchCall) :
    fetchLoop acc (xs ++ ys) = fetchLoop (fetchLoop acc xs) ys := by
  induction xs generalizing acc with
  | nil => rfl
  | cons c cs ih => simp [fetchLoop, ih]

theorem fetchStep_of_not_stores (acc : GroupDataset) (c : FetchCall)
    (hc : c.stores = false) : fetchStep acc c = acc := by
  obtain ⟨t, ho, ro⟩ := c
  cases ho with
  | err => rfl
  | ok h =>
      cases h with
      | nil => simp [fetchStep]
      | cons a t' => simp [FetchCall.stores] at hc

theorem storing_call_mem_cons (c : FetchCall) (cs : List FetchCall) (s : String)
    (hc : c.stores = false) :
    (∃ d ∈ c :: cs, d.1 = s ∧ d.stores = true) ↔ ∃ d ∈ cs, d.1 = s ∧ d.stores = true := by
  constructor
  · rintro ⟨d, hd, hds, hst⟩
    rcases List.mem_cons.1 hd with rfl | hd
    · rw [hc] at hst; cases hst
    · exact ⟨d, hd, hds, hst⟩
  · rintro ⟨d, hd, hds, hst⟩
    exact ⟨d, List.mem_cons_of_mem _ hd, hds, hst⟩

theorem findRecord_fetchLoop_isSome (acc : GroupDataset) (cs : List FetchCall) (s : String) :
    (∃ rec, findRecord (fetchLoop acc cs) s = some rec) ↔
      (∃ rec, findRecord acc s = some rec) ∨ ∃ c ∈ cs, c.1 = s ∧ c.stores = true := by
  induction cs generalizing acc with
  | nil => simp [fetchLoop]
  | cons c cs ih =>
      by_cases hst : c.stores = true
      · obtain ⟨t, ho, ro⟩ := c
        cases ho with
        | err => simp [FetchCall.stores] at hst
        | ok h =>
            have hemp : h ≠ [] := by
              intro hE
              subst hE
              simp [FetchCall.stores] at hst
            simp only [fetchLoop, fetchStep, if_neg hemp, ih]
            by_cases hts : t = s
            · subst hts
              constructor
              · intro _
                exact Or.inr ⟨(t, HistOutcome.ok h, ro), List.mem_cons_self _ _,
                  rfl, by simp [FetchCall.stores, hemp]⟩
              · intro _
                exact Or.inl ⟨_, findRecord_dictUpdate_self acc t ⟨h, ro.value⟩⟩
            · rw [findRecord_dictUpdate_ne acc t s _ hts]
              constructor
              · rintro (hx | ⟨d, hd, hds, hdst⟩)
                · exact Or.inl hx
                · exact Or.inr ⟨d, List.mem_cons_of_mem _ hd, hds, hdst⟩
              · rintro (hx | ⟨d, hd, hds, hdst⟩)
                · exact Or.inl hx
                · rcases List.mem_cons.1 hd with rfl | hd
                  · exact absurd hds hts
                  · exact Or.inr ⟨d, hd, hds, hdst⟩
      · rw [Bool.not_eq_true] at hst
        rw [show fetchLoop acc (c :: cs) = fetchLoop (fetchStep acc c) cs from rfl,
          fetchStep_of_not_stores acc c hst, ih, storing_call_mem_cons c cs s hst]

theorem fetchLoop_history_ne_nil (acc : GroupDataset) (cs : List FetchCall)
    (hacc : ∀ p ∈ acc, p.2.history ≠ []) :
    ∀ p ∈ fetchLoop acc cs, p.2.history ≠ [] := by
  induction cs generalizing acc with
  | nil => exact hacc
  | cons c cs ih =>
      obtain ⟨t, ho, ro⟩ := c
      cases ho with
      | err => exact ih acc hacc
      | ok h =>
          by_cases hemp : h = []
          · simpa [fetchLoop, fetchStep, hemp] using ih acc hacc
          · simp only [fetchLoop, fetchStep, if_neg hemp]
            exact ih _ (values_dictUpdate acc t ⟨h, ro.value⟩
              (fun rec => rec.history ≠ []) hacc hemp)

theorem fetchLoop_nodup_keys (acc : GroupDataset) (cs : List FetchCall)
    (hacc : (acc.map Prod.fst).Nodup) :
    ((fetchLoop acc cs).map Prod.fst).Nodup := by
  induction cs generalizing acc with
  | nil => exact hacc
  | cons c cs ih =>
      obtain ⟨t, ho, ro⟩ := c
      cases ho with
      | err => exact ih acc hacc
      | ok h =>
          by_cases hemp : h = []
          · simpa [fetchLoop, fetchStep, hemp] using ih acc hacc
          · simp only [fetchLoop, fetchStep, if_neg hemp]
            exact ih _ (nodup_keys_dictUpdate acc t ⟨h, ro.value⟩ hacc)

theorem findRecord_fetchLoop_last (acc : GroupDataset) (pre : List FetchCall)
    (s : String) (h : List ℚ) (ro : RevOutcome) (hne : h ≠ []) :
    findRecord (fetchLoop acc (pre ++ [(s, HistOutcome.ok h, ro)])) s
      = some ⟨h, ro.value⟩ := by
  rw [fetchLoop_append]
  simp only [fetchLoop, fetchStep, if_neg hne]
  exact findRecord_dictUpdate_self _ s _

/- ### Claims about the fetcher -/

/-- C3: `get_financial_data` returns a dataset containing exactly the symbols
for which some iteration obtained a non-empty price history (a failed or empty
fetch omits only that symbol and never aborts the loop); every stored record
keeps a non-empty history; and a revenue-sub-step failure on a symbol's final
successful iteration leaves the symbol in the result with its price history
retained and revenue absent. -/
theorem fetch_failure_isolation (calls : List FetchCall) :
    (∀ s : String, (∃ rec, findRecord (get_financial_data calls) s = some rec) ↔
        ∃ c ∈ calls, c.1 = s ∧ c.stores = true) ∧
    (∀ p ∈ get_financial_data calls, p.2.history ≠ []) ∧
    (∀ (pre : List FetchCall) (s : String) (h : List ℚ), h ≠ [] →
        findRecord (get_financial_data (pre ++ [(s, HistOutcome.ok h, RevOutcome.err)])) s
          = some ⟨h, none⟩) := by
  refine ⟨fun s => ?_, ?_, fun pre s h hne => ?_⟩
  · rw [get_financial_data, findRecord_fetchLoop_isSome]
    simp [findRecord]
  · exact fetchLoop_history_ne_nil [] calls (by simp)
  · exact findRecord_fetchLoop_last [] pre s h RevOutcome.err hne

/-- Witness for C3 at a concrete run: a failing symbol is skipped, and a
symbol whose revenue fetch raises is kept with its history and no revenue. -/
theorem fetch_failure_isolation_witness :
    findRecord (get_financial_data ([("BAC", HistOutcome.err, RevOutcome.ok none)] ++
        [("JPM", HistOutcome.ok [1, 2], RevOutcome.err)])) "JPM"
      = some ⟨[1, 2], none⟩ :=
  (fetch_failure_isolation []).2.2 [("BAC", HistOutcome.err, RevOutcome.ok none)]
    "JPM" [1, 2] (by simp)

/-- C10: the dataset is a dict keyed by symbol — its keys are pairwise
distinct even when the requested symbol sequence contains duplicates, and the
result of a repeated symbol's later successful fetch overwrites the earlier
entry. -/
theorem fetch_dataset_keyed_by_symbol (calls : List FetchCall) :
    ((get_financial_data calls).map Prod.fst).Nodup ∧
    (∀ (pre : List FetchCall) (s : String) (h : List ℚ) (ro : RevOutcome), h ≠ [] →
        findRecord (get_financial_data (pre ++ [(s, HistOutcome.ok h, ro)])) s
          = some ⟨h, ro.value⟩) := by
  refine ⟨fetchLoop_nodup_keys [] calls (by simp), fun pre s h ro hne => ?_⟩
  exact findRecord_fetchLoop_last [] pre s h ro hne

/-- Witness for C10 at a concrete run with a duplicated symbol: the second
fetch of "JPM" overwrites the first entry. -/
theorem fetch_dataset_keyed_by_symbol_witness :
    findRecord (get_financial_data
        ([("JPM", HistOutcome.ok [1], RevOutcome.ok (some 5))] ++
          [("JPM", HistOutcome.ok [2, 3], RevOutcome.ok (some 7))])) "JPM"
      = some ⟨[2, 3], some 7⟩ :=
  (fetch_dataset_keyed_by_symbol []).2
    [("JPM", HistOutcome.ok [1], RevOutcome.ok (some 5))] "JPM" [2, 3]
    (RevOutcome.ok (some 7)) (by simp)

/- ### Report-builder lemmas -/

theorem pctChange_length : ∀ l : List ℚ, (pctChange l).length = l.length - 1
  | [] => rfl
  | [_] => rfl
  | a :: b :: t => by
      have ih := pctChange_length (b :: t)
      simp only [pctChange, List.length_cons] at ih ⊢
      omega

theorem mem_revenues (data : GroupDataset) (s : String) (v : ℚ) :
    (s, v) ∈ revenues data ↔ ∃ rec, (s, rec) ∈ data ∧ rec.revenue = some v := by
  simp only [revenues, List.mem_filterMap, Option.map_eq_some']
  constructor
  · rintro ⟨⟨t, rec⟩, hmem, w, hw, heq⟩
    cases heq
    exact ⟨rec, hmem, hw⟩
  · rintro ⟨rec, hmem, hrev⟩
    exact ⟨(s, rec), hmem, v, hrev, rfl⟩

theorem revenues_keys (data : GroupDataset) :
    (revenues data).map Prod.fst
      = (data.filter fun p => p.2.revenue.isSome).map Prod.fst := by
  induction data with
  | nil => rfl
  | cons p rest ih =>
      obtain ⟨s, rec⟩ := p
      cases hrev : rec.revenue with
      | none =>
          have h1 : revenues ((s, rec) :: rest) = revenues rest := by
            simp [revenues, List.filterMap_cons, hrev]
          rw [h1, ih]
          simp [List.filter_cons, hrev]
      | some v =>
          have h1 : revenues ((s, rec) :: rest) = (s, v) :: revenues rest := by
            simp [revenues, List.filterMap_cons, hrev]
          rw [h1]
          simp [List.filter_cons, hrev, ih]

/- ### Publisher lemmas -/

theorem combined_html_four (toHtml : Figure → String) (f1 f2 f3 f4 : Figure) :
    combined_html toHtml [f1, f2, f3, f4]
      = wrapDiv (toHtml f1) ++ (wrapDiv (toHtml f2) ++
          (wrapDiv (toHtml f3) ++ wrapDiv (toHtml f4))) := by
  apply String.ext
  simp [combined_html, List.append_assoc]

theorem titleElement_in_full_html (toHtml : Figure → String) (figures : List Figure)
    (g p : String) :
    (titleElement g p).data <:+: (full_html toHtml figures g p).data := by
  refine ⟨("\n    <html>\n    <head>\n        " : String).data,
    ("\n        " ++ styles ++ "\n    </head>\n    <body>\n        " ++
      h1Element g p ++ "\n        " ++ combined_html toHtml figures ++
      "\n    </body>\n    </html>\n    ").data, ?_⟩
  simp [full_html, List.append_assoc]

theorem h1Element_in_full_html (toHtml : Figure → String) (figures : List Figure)
    (g p : String) :
    (h1Element g p).data <:+: (full_html toHtml figures g p).data := by
  refine ⟨("\n    <html>\n    <head>\n        " ++ titleElement g p ++
      "\n        " ++ styles ++ "\n    </head>\n    <body>\n        " : String).data,
    ("\n        " ++ combined_html toHtml figures ++
      "\n    </body>\n    </html>\n    " : String).data, ?_⟩
  simp [full_html, List.append_assoc]

/- ### Claims about the publisher and report builder -/

/-- C1 as stated is false: for the group "US Banks" and period "5y" the
`<title>` element's text is "US Banks Analysis (5y)", which does not contain
the string "US Banks Interactive Financial Dashboard (5y)"; only the `<h1>`
carries that string. -/
theorem title_heading_counterexample :
    ¬ (dashboardHeading "US Banks" "5y").data <:+: (documentTitle "US Banks" "5y").data := by
  decide

/-- C1 (amended): the published HTML document contains a `<title>` element
whose text contains "{group_name} Analysis ({period_label})" and an `<h1>`
element whose text contains "{group_name} Interactive Financial Dashboard
({period_label})". -/
theorem title_and_heading_elements (toHtml : Figure → String) (figures : List Figure)
    (g p : String) :
    (titleElement g p).data <:+: (full_html toHtml figures g p).data ∧
    (h1Element g p).data <:+: (full_html toHtml figures g p).data ∧
    (documentTitle g p).data <:+: (titleElement g p).data ∧
    (dashboardHeading g p).data <:+: (h1Element g p).data :=
  ⟨titleElement_in_full_html toHtml figures g p,
   h1Element_in_full_html toHtml figures g p,
   ⟨("<title>" : String).data, ("</title>" : String).data, by
      simp [titleElement, List.append_assoc]⟩,
   ⟨("<h1>" : String).data, ("</h1>" : String).data, by
      simp [h1Element, List.append_assoc]⟩⟩

/-- C2: when the upload fails, the publisher writes a local file named exactly
`{group_name}_interactive_dashboard_{period_label}.html` whose bytes are the
very bytes a successful upload would have sent; when the local write fails
too, no handler catches it and the error propagates to the caller. -/
theorem upload_failure_fallback (toHtml : Figure → String) (figures : List Figure)
    (g p : String) :
    (∃ bytes,
      save_plotly_figures_as_html toHtml figures g p true true
        = Except.ok ⟨some (g ++ "_interactive_dashboard_" ++ p ++ ".html", bytes), none⟩ ∧
      save_plotly_figures_as_html toHtml figures g p false true
        = Except.ok ⟨none, some (g ++ "_interactive_dashboard_" ++ p ++ ".html", bytes)⟩) ∧
    (∃ e, save_plotly_figures_as_html toHtml figures g p false false = Except.error e) :=
  ⟨⟨full_html toHtml figures g p, rfl, rfl⟩, ⟨objectName g p, rfl⟩⟩

/-- C4: the average-return chart is a bar chart over the per-symbol mean
day-over-day fractional changes — a permutation of `(symbol, mean return)`
pairs for the whole dataset, listed in ascending order of the mean — and for
an `n`-day series the mean has `n - 1` terms (the first day contributes
none). -/
theorem average_return_chart (data : GroupDataset) (hne : data ≠ []) :
    avgReturnFig data
      = Figure.bar "📉 Average Daily Returns" "Ticker" "Avg Daily Return"
          (sortedReturns data) ∧
    (sortedReturns data).Perm (data.map fun p => (p.1, meanReturn p.2.history)) ∧
    List.Sorted returnsRel (sortedReturns data) ∧
    (∀ (p0 : ℚ) (rest : List ℚ),
      (pctChange (p0 :: rest)).length = rest.length ∧
      meanReturn (p0 :: rest) = (pctChange (p0 :: rest)).sum / rest.length) := by
  refine ⟨rfl, List.perm_insertionSort returnsRel _,
    List.sorted_insertionSort returnsRel _, ?_⟩
  intro p0 rest
  have hlen := pctChange_length (p0 :: rest)
  simp only [List.length_cons, Nat.add_sub_cancel] at hlen
  exact ⟨hlen, by rw [meanReturn, hlen]⟩

/-- Witness for C4: with "A" strictly increasing and "B" strictly decreasing,
the returns chart lists "B" before "A". -/
theorem average_return_chart_witness :
    (sortedReturns [("A", ⟨[1, 2, 4], none⟩), ("B", ⟨[4, 2, 1], none⟩)]).map Prod.fst
        = ["B", "A"] ∧
    (avgReturnFig [("A", ⟨[1, 2, 4], none⟩), ("B", ⟨[4, 2, 1], none⟩)]
        = Figure.bar "📉 Average Daily Returns" "Ticker" "Avg Daily Return"
            (sortedReturns [("A", ⟨[1, 2, 4], none⟩), ("B", ⟨[4, 2, 1], none⟩)]) ∧
      (sortedReturns [("A", ⟨[1, 2, 4], none⟩), ("B", ⟨[4, 2, 1], none⟩)]).Perm
        (([("A", ⟨[1, 2, 4], none⟩), ("B", ⟨[4, 2, 1], none⟩)] : GroupDataset).map
          fun p => (p.1, meanReturn p.2.history)) ∧
      List.Sorted returnsRel
        (sortedReturns [("A", ⟨[1, 2, 4], none⟩), ("B", ⟨[4, 2, 1], none⟩)]) ∧
      (∀ (p0 : ℚ) (rest : List ℚ),
        (pctChange (p0 :: rest)).length = rest.length ∧
        meanReturn (p0 :: rest) = (pctChange (p0 :: rest)).sum / rest.length)) :=
  ⟨by norm_num [sortedReturns, meanReturn, pctChange, returnsRel,
      List.insertionSort, List.orderedInsert],
   average_return_chart [("A", ⟨[1, 2, 4], none⟩), ("B", ⟨[4, 2, 1], none⟩)] (by simp)⟩

/-- C5: the revenue chart is a bar chart over exactly the symbols whose
revenue is non-absent when at least one exists, and otherwise the placeholder
figure holding the single annotation "No Revenue Data Available" and no
data. -/
theorem revenue_chart (data : GroupDataset) (hne : data ≠ []) :
    (revenueFig data = if revenues data ≠ [] then
        Figure.bar "💰 Latest Reported Revenue" "Ticker" "Revenue" (revenues data)
      else
        Figure.annotated "💰 Latest Reported Revenue" "No Revenue Data Available") ∧
    (∀ (s : String) (v : ℚ), (s, v) ∈ revenues data ↔
        ∃ rec, (s, rec) ∈ data ∧ rec.revenue = some v) ∧
    ((revenues data).map Prod.fst
        = (data.filter fun p => p.2.revenue.isSome).map Prod.fst) :=
  ⟨rfl, fun s v => mem_revenues data s v, revenues_keys data⟩

/-- Witness for C5: a dataset whose symbols all lack revenue yields the
single-annotation placeholder, not an empty bar chart. -/
theorem revenue_chart_witness :
    revenueFig [("JPM", ⟨[1], none⟩), ("BAC", ⟨[2, 3], none⟩)]
        = Figure.annotated "💰 Latest Reported Revenue" "No Revenue Data Available" ∧
    ((revenueFig [("JPM", ⟨[1], none⟩), ("BAC", ⟨[2, 3], none⟩)]
        = if revenues [("JPM", ⟨[1], none⟩), ("BAC", ⟨[2, 3], none⟩)] ≠ [] then
            Figure.bar "💰 Latest Reported Revenue" "Ticker" "Revenue"
              (revenues [("JPM", ⟨[1], none⟩), ("BAC", ⟨[2, 3], none⟩)])
          else
            Figure.annotated "💰 Latest Reported Revenue" "No Revenue Data Available") ∧
      (∀ (s : String) (v : ℚ),
        (s, v) ∈ revenues [("JPM", ⟨[1], none⟩), ("BAC", ⟨[2, 3], none⟩)] ↔
          ∃ rec, (s, rec) ∈ ([("JPM", ⟨[1], none⟩), ("BAC", ⟨[2, 3], none⟩)] : GroupDataset) ∧
            rec.revenue = some v) ∧
      ((revenues [("JPM", ⟨[1], none⟩), ("BAC", ⟨[2, 3], none⟩)]).map Prod.fst
        = (([("JPM", ⟨[1], none⟩), ("BAC", ⟨[2, 3], none⟩)] : GroupDataset).filter
            fun p => p.2.revenue.isSome).map Prod.fst)) :=
  ⟨by decide,
   revenue_chart [("JPM", ⟨[1], none⟩), ("BAC", ⟨[2, 3], none⟩)] (by simp)⟩

/-- C6: for a non-empty dataset the builder returns exactly 4 charts in the
fixed order [price-trend, price-distribution, revenue-bar, average-return-bar],
and that order is the order of the chart containers concatenated into the
published document. -/
theorem chartset_fixed_order (data : GroupDataset) (hne : data ≠ [])
    (g p : String) (toHtml : Figure → String) :
    create_interactive_plotly_dashboard data g
      = [priceTrendFig data g, priceBoxFig data, revenueFig data, avgReturnFig data] ∧
    (create_interactive_plotly_dashboard data g).length = 4 ∧
    combined_html toHtml (create_interactive_plotly_dashboard data g)
      = wrapDiv (toHtml (priceTrendFig data g)) ++ (wrapDiv (toHtml (priceBoxFig data)) ++
          (wrapDiv (toHtml (revenueFig data)) ++ wrapDiv (toHtml (avgReturnFig data)))) ∧
    (∃ pre post, full_html toHtml (create_interactive_plotly_dashboard data g) g p
        = pre ++ (combined_html toHtml (create_interactive_plotly_dashboard data g) ++ post)) := by
  refine ⟨rfl, rfl, combined_html_four toHtml _ _ _ _, ?_⟩
  refine ⟨"\n    <html>\n    <head>\n        " ++ titleElement g p ++ "\n        " ++
    styles ++ "\n    </head>\n    <body>\n        " ++ h1Element g p ++ "\n        ",
    "\n    </body>\n    </html>\n    ", ?_⟩
  simp [full_html, String.append_assoc]

/-- Witness for C6 at a one-symbol dataset and a constant serializer. -/
theorem chartset_fixed_order_witness :
    create_interactive_plotly_dashboard [("JPM", ⟨[1], some 5⟩)] "US Banks"
      = [priceTrendFig [("JPM", ⟨[1], some 5⟩)] "US Banks",
         priceBoxFig [("JPM", ⟨[1], some 5⟩)],
         revenueFig [("JPM", ⟨[1], some 5⟩)],
         avgReturnFig [("JPM", ⟨[1], some 5⟩)]] ∧
    (create_interactive_plotly_dashboard [("JPM", ⟨[1], some 5⟩)] "US Banks").length = 4 ∧
    combined_html (fun _ => "XYZ")
        (create_interactive_plotly_dashboard [("JPM", ⟨[1], some 5⟩)] "US Banks")
      = wrapDiv ((fun _ => "XYZ") (priceTrendFig [("JPM", ⟨[1], some 5⟩)] "US Banks")) ++
          (wrapDiv ((fun _ => "XYZ") (priceBoxFig [("JPM", ⟨[1], some 5⟩)])) ++
            (wrapDiv ((fun _ => "XYZ") (revenueFig [("JPM", ⟨[1], some 5⟩)])) ++
              wrapDiv ((fun _ => "XYZ") (avgReturnFig [("JPM", ⟨[1], some 5⟩)])))) ∧
    (∃ pre post, full_html (fun _ => "XYZ")
        (create_interactive_plotly_dashboard [("JPM", ⟨[1], some 5⟩)] "US Banks")
        "US Banks" "5y"
      = pre ++ (combined_html (fun _ => "XYZ")
          (create_interactive_plotly_dashboard [("JPM", ⟨[1], some 5⟩)] "US Banks") ++ post)) :=
  chartset_fixed_order [("JPM", ⟨[1], some 5⟩)] (by simp) "US Banks" "5y" (fun _ => "XYZ")

/- ### Claims about the run driver and startup -/

/-- C7: a group whose fetch yields an empty dataset is skipped — no chart is
built, no publish is attempted, no artifact is produced for it — and
processing moves on to the next group: with "US Banks" empty, the whole run's
outcome is exactly the "US Banks in India" outcome (exceptions included)
paired with no first artifact; with "US Banks in India" empty, any run that
completes carries no second artifact. -/
theorem empty_group_skipped (toHtml : Figure → String) (u l : Bool)
    (callsUS callsIndia : List FetchCall)
    (hUS : TICKER_GROUPS.lookup "US Banks" = some (callsUS.map Prod.fst))
    (hIn : TICKER_GROUPS.lookup "US Banks in India" = some (callsIndia.map Prod.fst)) :
    (get_financial_data callsUS = [] →
      mainRun toHtml u l callsUS callsIndia
        = (groupOutcome (processGroup toHtml u l callsIndia "US Banks in India" "5y")).map
            (fun eff2 => (none, eff2))) ∧
    (get_financial_data callsIndia = [] →
      ∀ r, mainRun toHtml u l callsUS callsIndia = Except.ok r → r.2 = none) := by
  constructor
  · intro h
    have h1 : processGroup toHtml u l callsUS "US Banks" "5y" = none := by
      simp [processGroup, h]
    rcases hpg : processGroup toHtml u l callsIndia "US Banks in India" "5y"
        with _ | (e | eff) <;>
      simp [mainRun, h1, hpg, groupOutcome, Except.map]
  · intro h r hr
    have h2 : processGroup toHtml u l callsIndia "US Banks in India" "5y" = none := by
      simp [processGroup, h]
    rw [mainRun, h2] at hr
    rcases hg : groupOutcome (processGroup toHtml u l callsUS "US Banks" "5y")
        with e | eff1
    · rw [hg] at hr
      simp at hr
    · rw [hg] at hr
      simp only [groupOutcome] at hr
      simp at hr
      rw [← hr]

/-- Witness for C7: all five US-Banks fetches fail, so the run degenerates to
the second group's processing with no first artifact; the second group (all
fetches succeeding, upload ok) still publishes its artifact. -/
theorem empty_group_skipped_witness :
    mainRun (fun _ => "") true true
        [("JPM", HistOutcome.err, RevOutcome.ok none),
         ("BAC", HistOutcome.err, RevOutcome.ok none),
         ("C", HistOutcome.err, RevOutcome.ok none),
         ("WFC", HistOutcome.err, RevOutcome.ok none),
         ("GS", HistOutcome.err, RevOutcome.ok none)]
        [("JPM", HistOutcome.ok [1], RevOutcome.ok none),
         ("WFC", HistOutcome.ok [1], RevOutcome.ok none),
         ("C", HistOutcome.ok [1], RevOutcome.ok none),
         ("BAC", HistOutcome.ok [1], RevOutcome.ok none)]
      = (groupOutcome (processGroup (fun _ => "") true true
            [("JPM", HistOutcome.ok [1], RevOutcome.ok none),
             ("WFC", HistOutcome.ok [1], RevOutcome.ok none),
             ("C", HistOutcome.ok [1], RevOutcome.ok none),
             ("BAC", HistOutcome.ok [1], RevOutcome.ok none)]
            "US Banks in India" "5y")).map (fun eff2 => (none, eff2)) ∧
    (∃ eff2, mainRun (fun _ => "") true true
        [("JPM", HistOutcome.err, RevOutcome.ok none),
         ("BAC", HistOutcome.err, RevOutcome.ok none),
         ("C", HistOutcome.err, RevOutcome.ok none),
         ("WFC", HistOutcome.err, RevOutcome.ok none),
         ("GS", HistOutcome.err, RevOutcome.ok none)]
        [("JPM", HistOutcome.ok [1], RevOutcome.ok none),
         ("WFC", HistOutcome.ok [1], RevOutcome.ok none),
         ("C", HistOutcome.ok [1], RevOutcome.ok none),
         ("BAC", HistOutcome.ok [1], RevOutcome.ok none)]
      = Except.ok (none, some eff2)) :=
  ⟨(empty_group_skipped (fun _ => "") true true _ _ (by decide) (by decide)).1 rfl,
   ⟨_, rfl⟩⟩

/-- C8: with either credential variable unset the process exits with status 1
— a non-zero code — before any fetch or publish work; the region defaults to
"us-east-1" exactly when its variable is unset. -/
theorem startup_credentials (e : Env) (toHtml : Figure → String) (u l : Bool)
    (callsUS callsIndia : List FetchCall) :
    ((e.accessKeyId = none ∨ e.secretAccessKey = none) →
      program e toHtml u l callsUS callsIndia = Except.error 1) ∧
    (∀ c, program e toHtml u l callsUS callsIndia = Except.error c → c ≠ 0) ∧
    (e.defaultRegion = none →
      ∀ cfg, loadConfig e = Except.ok cfg → cfg.region = "us-east-1") := by
  refine ⟨fun h => ?_, fun c hc => ?_, fun hr cfg hcfg => ?_⟩
  · rcases h with h | h
    · simp [program, loadConfig, truthy, h]
    · simp [program, loadConfig, truthy, h]
  · by_cases hb : (truthy e.accessKeyId && truthy e.secretAccessKey) = true
    · simp [program, loadConfig, hb] at hc
    · simp [program, loadConfig, hb] at hc
      omega
  · by_cases hb : (truthy e.accessKeyId && truthy e.secretAccessKey) = true
    · rw [loadConfig, if_pos hb] at hcfg
      injection hcfg with hcfg
      rw [← hcfg, hr]
    · rw [loadConfig, if_neg hb] at hcfg
      cases hcfg

/-- Witness for C8: a missing access key makes the process exit with code 1;
with credentials present and the region unset, the loaded region is
"us-east-1". -/
theorem startup_credentials_witness :
    program ⟨some "bkt", none, none, some "sk"⟩ (fun _ => "") true true [] []
        = Except.error 1 ∧
    (Config.mk none "us-east-1" (some "ak") (some "sk")).region = "us-east-1" :=
  ⟨(startup_credentials ⟨some "bkt", none, none, some "sk"⟩ (fun _ => "") true true [] []).1
      (Or.inl rfl),
   (startup_credentials ⟨none, none, some "ak", some "sk"⟩ (fun _ => "") true true [] []).2.2
      rfl ⟨none, "us-east-1", some "ak", some "sk"⟩ rfl⟩

/-- C9: the published bytes are a function of the fetched dataset, the group
name, the period label and the (deterministic, per the spec's scoping of the
charting layer) serializer alone: any two publish runs over the same dataset
that produce a document — whatever their storage outcomes — produce
byte-identical documents, equal to `report_html`. -/
theorem report_deterministic (toHtml : Figure → String) (data : GroupDataset)
    (g p : String) (hne : data ≠ []) (u1 l1 u2 l2 : Bool) (b1 b2 : String)
    (h1 : publishedBytes (save_plotly_figures_as_html toHtml
        (create_interactive_plotly_dashboard data g) g p u1 l1) = some b1)
    (h2 : publishedBytes (save_plotly_figures_as_html toHtml
        (create_interactive_plotly_dashboard data g) g p u2 l2) = some b2) :
    b1 = b2 ∧ b1 = report_html toHtml data g p := by
  have key : ∀ (u l : Bool) (b : String),
      publishedBytes (save_plotly_figures_as_html toHtml
        (create_interactive_plotly_dashboard data g) g p u l) = some b →
      b = report_html toHtml data g p := by
    intro u l b hb
    cases u <;> cases l <;>
      simp [save_plotly_figures_as_html, publishedBytes, report_html] at hb ⊢ <;>
      exact hb.symm
  exact ⟨(key u1 l1 b1 h1).trans (key u2 l2 b2 h2).symm, key u1 l1 b1 h1⟩

/-- Witness for C9: a successful-upload run and an upload-failed run over the
same one-symbol dataset yield the same bytes. -/
theorem report_deterministic_witness :
    report_html (fun _ => "XYZ") [("JPM", ⟨[1], none⟩)] "US Banks" "5y"
        = report_html (fun _ => "XYZ") [("JPM", ⟨[1], none⟩)] "US Banks" "5y" ∧
    report_html (fun _ => "XYZ") [("JPM", ⟨[1], none⟩)] "US Banks" "5y"
        = report_html (fun _ => "XYZ") [("JPM", ⟨[1], none⟩)] "US Banks" "5y" :=
  report_deterministic (fun _ => "XYZ") [("JPM", ⟨[1], none⟩)] "US Banks" "5y"
    (by simp) true true false true _ _ rfl rfl

end Ip
